import Mathlib

/-!
Shallow embedding of the recording/transcription core of `src/main.js`
(an Electron voice-recorder that persists audio chunks to a file and, on
stop, runs a speech-to-text provider followed by a formatting provider).

Modelling conventions:
* Byte buffers are `List Nat` (opaque bytes).
* The file system is a total map `String → List Nat` from paths to contents.
* The three mutable globals `currentWriteStream`, `currentFilePath`,
  `currentMimeType` form `RecState`; the write stream is identified by the
  path it writes to.
* Network I/O is modelled by passing the backend's response as an explicit
  oracle value; each provider function returns its result together with the
  number of network requests it issued.
* JavaScript's `x || y` on strings/nullable values is `jsOrS` (empty string
  and null/undefined are falsy).
-/

/-- Opaque audio bytes. -/
abbrev ByteSeq := List Nat

/-- JavaScript `x || d` for a nullable string `x`: `null`/`undefined` and the
empty string are falsy. -/
def jsOrS (x : Option String) (d : String) : String :=
  match x with
  | none => d
  | some s => if s = "" then d else s

/-- Does `hay` start with `needle`? (helper for substring containment). -/
def startsWithL : List Char → List Char → Bool
  | [], _ => true
  | _ :: _, [] => false
  | a :: as, b :: bs => a == b && startsWithL as bs

/-- JavaScript `hay.includes(needle)`: substring containment. -/
def containsSub (hay needle : List Char) : Bool :=
  match hay with
  | [] => startsWithL needle []
  | _ :: t => startsWithL needle hay || containsSub t needle

/-- Does string `s` end in `suf`? -/
def endsIn (s suf : String) : Bool :=
  startsWithL suf.data.reverse s.data.reverse

/-- JavaScript whitespace test used by `trim` (the characters relevant here). -/
def isWS (c : Char) : Bool :=
  c == ' ' || c == '\n' || c == '\t' || c == '\r'

/-- JavaScript `String.prototype.trim` on the character list. -/
def trimL (l : List Char) : List Char :=
  ((l.dropWhile isWS).reverse.dropWhile isWS).reverse

/-- JavaScript `s.trim()`. -/
def trimS (s : String) : String := String.mk (trimL s.data)

/-- JavaScript `parts.join("")`. -/
def joinAll (l : List String) : String := l.foldl (fun a b => a ++ b) ""

/-- Concatenation of a sequence of byte buffers in order. -/
def concatBytes : List ByteSeq → ByteSeq
  | [] => []
  | b :: bs => b ++ concatBytes bs

/-- Point update of the file-system map. -/
def setFile (f : String → ByteSeq) (p : String) (b : ByteSeq) : String → ByteSeq :=
  fun q => if q = p then b else f q

/-- The extension choice of `recording:start` (main.js line 139):
`currentMimeType.includes("webm") ? ".webm" : currentMimeType.includes("wav") ? ".wav" : ".dat"`. -/
def extForMime (m : String) : String :=
  if containsSub m.data "webm".data then ".webm"
  else if containsSub m.data "wav".data then ".wav"
  else ".dat"

/-- `makeFilePath` (main.js lines 131-134): joins the output directory with
`rec_<timestamp><ext>`; the timestamp is modelled as a parameter. -/
def makeFilePath (ts ext : String) : String :=
  "Recordings/rec_" ++ ts ++ ext

/-- The three module-level mutable variables of main.js (lines 120-122) plus
the file system; the open write stream is identified by its target path. -/
structure RecState where
  currentWriteStream : Option String
  currentFilePath : Option String
  currentMimeType : Option String
  files : String → ByteSeq

/-- Shape of the `recording:start` / `recording:stop` IPC replies. -/
structure IpcResp where
  ok : Bool
  filePath : Option String
  error : Option String
  deriving DecidableEq, Repr

/-- The `recording:result` event payload pushed to the renderer. -/
structure ResultEvent where
  filePath : Option String
  text : Option String
  raw : Option String
  error : Option String
  info : Option String
  deriving DecidableEq, Repr

/-- The `recording:start` handler (main.js lines 136-147): remembers the MIME
type (defaulting to `audio/webm`), derives the extension, allocates a fresh
timestamped path, opens (truncates) the sink there, and replies ok. -/
def startHandler (s : RecState) (mimeType : Option String) (ts : String) :
    RecState × IpcResp :=
  let mt := jsOrS mimeType "audio/webm"
  let ext := extForMime mt
  let fp := makeFilePath ts ext
  ({ currentWriteStream := some fp
     currentFilePath := some fp
     currentMimeType := some mt
     files := setFile s.files fp [] },
   { ok := true, filePath := some fp, error := none })

/-- The `recording:data` handler (main.js lines 149-157): if a write stream is
open and the chunk is truthy, append the bytes; a failing write is caught and
logged, leaving the state as it was. Otherwise a silent no-op. -/
def dataHandler (s : RecState) (chunk : Option ByteSeq) (writeOk : Bool) :
    RecState :=
  match s.currentWriteStream, chunk with
  | some p, some b =>
      if writeOk then
        { s with files := setFile s.files p (s.files p ++ b) }
      else s
  | _, _ => s

/-- Run a sequence of `recording:data` deliveries whose writes all succeed. -/
def runDataOk (s : RecState) (cs : List ByteSeq) : RecState :=
  cs.foldl (fun st b => dataHandler st (some b) true) s

/-- Response oracle for the OpenAI transcription endpoint: HTTP status plus
the parsed `data.text` field (absent when the JSON has none). -/
structure OpenAISttResp where
  ok : Bool
  status : Nat
  errText : String
  text : Option String
  deriving DecidableEq, Repr

/-- Response oracle for the OpenAI chat endpoint:
`data.choices?.[0]?.message?.content` (absent when the chain is missing). -/
structure OpenAIFmtResp where
  ok : Bool
  status : Nat
  errText : String
  content : Option String
  deriving DecidableEq, Repr

/-- Response oracle for a Gemini `generateContent` endpoint:
`data.candidates?.[0]?.content?.parts` texts (absent when the chain is
missing). -/
structure GeminiResp where
  ok : Bool
  status : Nat
  errText : String
  parts : Option (List String)
  deriving DecidableEq, Repr

/-- Text extraction common to both Gemini calls (main.js lines 280, 304):
`data.candidates?.[0]?.content?.parts?.map(p => p.text).join("")?.trim()`. -/
def geminiText (resp : GeminiResp) : Option String :=
  resp.parts.map (fun ps => trimS (joinAll ps))

/-- `transcribeWithOpenAI` (main.js lines 198-219). It performs no credential
check: the request is issued unconditionally (the key only feeds the
Authorization header). Returns the result and the number of network calls. -/
def transcribeWithOpenAI (apiKey filePath mimeType : String)
    (resp : OpenAISttResp) : Except String String × Nat :=
  if resp.ok then
    (Except.ok (jsOrS resp.text ""), 1)
  else
    (Except.error ("Whisper API error " ++ toString resp.status ++ ": "
      ++ resp.errText), 1)

/-- `formatWithOpenAI` (main.js lines 221-246). No credential check; on
success returns `content.trim() || transcribedText`. -/
def formatWithOpenAI (apiKey : String) (resp : OpenAIFmtResp)
    (transcribedText : String) : Except String String × Nat :=
  if resp.ok then
    (Except.ok (jsOrS (resp.content.map trimS) transcribedText), 1)
  else
    (Except.error ("Chat API error " ++ toString resp.status ++ ": "
      ++ resp.errText), 1)

/-- `transcribeWithGemini` (main.js lines 248-282): throws
`GEMINI_API_KEY is not set` before any fetch when the key is empty; on
success returns the joined, trimmed parts text or `""`. -/
def transcribeWithGemini (apiKey filePath mimeType : String)
    (resp : GeminiResp) : Except String String × Nat :=
  if apiKey = "" then (Except.error "GEMINI_API_KEY is not set", 0)
  else if resp.ok then
    (Except.ok (jsOrS (geminiText resp) ""), 1)
  else
    (Except.error ("Gemini STT error " ++ toString resp.status ++ ": "
      ++ resp.errText), 1)

/-- `formatWithGemini` (main.js lines 284-306): throws before any fetch when
the key is empty; on success returns the extracted text or the input
transcript. -/
def formatWithGemini (apiKey : String) (resp : GeminiResp)
    (transcribedText : String) : Except String String × Nat :=
  if apiKey = "" then (Except.error "GEMINI_API_KEY is not set", 0)
  else if resp.ok then
    (Except.ok (jsOrS (geminiText resp) transcribedText), 1)
  else
    (Except.error ("Gemini LLM error " ++ toString resp.status ++ ": "
      ++ resp.errText), 1)

/-- Process-wide provider configuration (main.js lines 17-29), already
lower-cased and defaulted; an absent credential is the empty string. -/
structure ProviderConfig where
  sttProvider : String
  llmProvider : String
  openaiApiKey : String
  geminiApiKey : String
  deriving DecidableEq, Repr

/-- Environment of one `recording:stop` pipeline run: the configuration plus
the backend responses each endpoint would give if called. -/
structure PipelineEnv where
  cfg : ProviderConfig
  openaiStt : OpenAISttResp
  geminiStt : GeminiResp
  openaiFmt : OpenAIFmtResp
  geminiFmt : GeminiResp

/-- Provider dispatch for transcription (main.js lines 171-173):
`STT_PROVIDER === "gemini" ? transcribeWithGemini : transcribeWithOpenAI`. -/
def transcribeCall (env : PipelineEnv) (filePath mimeType : String) :
    Except String String × Nat :=
  if env.cfg.sttProvider = "gemini" then
    transcribeWithGemini env.cfg.geminiApiKey filePath mimeType env.geminiStt
  else
    transcribeWithOpenAI env.cfg.openaiApiKey filePath mimeType env.openaiStt

/-- Provider dispatch for formatting (main.js lines 175-177). -/
def formatCall (env : PipelineEnv) (transcription : String) :
    Except String String × Nat :=
  if env.cfg.llmProvider = "gemini" then
    formatWithGemini env.cfg.geminiApiKey env.geminiFmt transcription
  else
    formatWithOpenAI env.cfg.openaiApiKey env.openaiFmt transcription

/-- Everything observable about one `recording:stop` invocation. -/
structure StopOut where
  state : RecState
  resp : IpcResp
  result : Option ResultEvent
  sttInvocations : Nat
  formatInvocations : Nat
  networkCalls : Nat

/-- The `recording:stop` handler (main.js lines 159-196). The sink-close
promise resolves unconditionally, the globals are cleared, and if a file was
finalized the pipeline runs: STT, then formatting; any throw from either is
caught and delivered as `{filePath, error: String(err)}` (JavaScript
`String(new Error(m))` is `"Error: " ++ m`). With no finalized file an info
event is sent. The reply is `{ok: true, filePath}` in every non-throwing
path. -/
def stopHandler (s : RecState) (env : PipelineEnv) : StopOut :=
  let s1 : RecState :=
    { s with currentWriteStream := none, currentFilePath := none }
  match s.currentFilePath with
  | some fp =>
      let mt := jsOrS s.currentMimeType "audio/webm"
      let tr := transcribeCall env fp mt
      match tr.1 with
      | Except.ok transcription =>
          let fm := formatCall env transcription
          match fm.1 with
          | Except.ok formatted =>
              { state := s1
                resp := { ok := true, filePath := some fp, error := none }
                result := some
                  { filePath := some fp
                    text := some formatted
                    raw := some transcription
                    error := none
                    info := none }
                sttInvocations := 1
                formatInvocations := 1
                networkCalls := tr.2 + fm.2 }
          | Except.error e =>
              { state := s1
                resp := { ok := true, filePath := some fp, error := none }
                result := some
                  { filePath := some fp
                    text := none
                    raw := none
                    error := some ("Error: " ++ e)
                    info := none }
                sttInvocations := 1
                formatInvocations := 1
                networkCalls := tr.2 + fm.2 }
      | Except.error e =>
          { state := s1
            resp := { ok := true, filePath := some fp, error := none }
            result := some
              { filePath := some fp
                text := none
                raw := none
                error := some ("Error: " ++ e)
                info := none }
            sttInvocations := 1
            formatInvocations := 0
            networkCalls := tr.2 }
  | none =>
      { state := s1
        resp := { ok := true, filePath := none, error := none }
        result := some
          { filePath := none
            text := none
            raw := none
            error := none
            info := some "No file to transcribe." }
        sttInvocations := 0
        formatInvocations := 0
        networkCalls := 0 }

/-- The idle state: no stream, no path, no MIME type, empty file system. -/
def idleState : RecState :=
  { currentWriteStream := none, currentFilePath := none
    currentMimeType := none, files := fun _ => [] }

/-! ## Helper lemmas about `stopHandler` -/

/-- `recording:stop` never modifies file contents. -/
theorem stopHandler_files (s : RecState) (env : PipelineEnv) :
    (stopHandler s env).state.files = s.files := by
  rcases hfp : s.currentFilePath with _ | fp
  · simp [stopHandler, hfp]
  · rcases htr : (transcribeCall env fp (jsOrS s.currentMimeType "audio/webm")).1
      with e | t
    · simp [stopHandler, hfp, htr]
    · rcases hfm : (formatCall env t).1 with e | f
      · simp [stopHandler, hfp, htr, hfm]
      · simp [stopHandler, hfp, htr, hfm]

/-- The reply's `filePath` is the finalized path (the value of
`currentFilePath` at entry). -/
theorem stopHandler_resp_filePath (s : RecState) (env : PipelineEnv) :
    (stopHandler s env).resp.filePath = s.currentFilePath := by
  rcases hfp : s.currentFilePath with _ | fp
  · simp [stopHandler, hfp]
  · rcases htr : (transcribeCall env fp (jsOrS s.currentMimeType "audio/webm")).1
      with e | t
    · simp [stopHandler, hfp, htr]
    · rcases hfm : (formatCall env t).1 with e | f
      · simp [stopHandler, hfp, htr, hfm]
      · simp [stopHandler, hfp, htr, hfm]

/-- Claim C9: `recording:stop` always replies `{ok: true}`; its `{ok: false}`
catch branch is unreachable because the sink-close promise resolves
unconditionally and every STT/formatting failure is caught by the inner
try/catch, which emits an error result event instead of throwing. -/
theorem stop_always_ok (s : RecState) (env : PipelineEnv) :
    (stopHandler s env).resp.ok = true := by
  rcases hfp : s.currentFilePath with _ | fp
  · simp [stopHandler, hfp]
  · rcases htr : (transcribeCall env fp (jsOrS s.currentMimeType "audio/webm")).1
      with e | t
    · simp [stopHandler, hfp, htr]
    · rcases hfm : (formatCall env t).1 with e | f
      · simp [stopHandler, hfp, htr, hfm]
      · simp [stopHandler, hfp, htr, hfm]

/-- Claim C5: `recording:stop` with no open session replies
`{ok: true, filePath: null}` without error, runs no STT and no formatting
call, issues no network request, and only sends the informational event. -/
theorem stop_idle_graceful (s : RecState) (env : PipelineEnv)
    (hw : s.currentWriteStream = none) (hp : s.currentFilePath = none) :
    (stopHandler s env).resp = { ok := true, filePath := none, error := none }
    ∧ (stopHandler s env).sttInvocations = 0
    ∧ (stopHandler s env).formatInvocations = 0
    ∧ (stopHandler s env).networkCalls = 0
    ∧ (stopHandler s env).result = some
        { filePath := none, text := none, raw := none, error := none
          info := some "No file to transcribe." } := by
  simp [stopHandler, hp]

/-- Witness for C5 at the concrete idle state. -/
theorem stop_idle_graceful_witness :
    (stopHandler idleState
      { cfg := { sttProvider := "openai", llmProvider := "openai"
                 openaiApiKey := "", geminiApiKey := "" }
        openaiStt := { ok := true, status := 200, errText := "", text := none }
        geminiStt := { ok := true, status := 200, errText := "", parts := none }
        openaiFmt := { ok := true, status := 200, errText := "", content := none }
        geminiFmt := { ok := true, status := 200, errText := "", parts := none } }).resp
      = { ok := true, filePath := none, error := none } :=
  (stop_idle_graceful idleState _ rfl rfl).1

/-- Claim C4 (confirmed): whenever the transcription stage fails, the result
event delivered carries only the error (no raw, no formatted text) and the
formatting client is never invoked. -/
theorem stop_sttFail_errorResult (s : RecState) (env : PipelineEnv)
    (fp e : String) (hfp : s.currentFilePath = some fp)
    (hstt : (transcribeCall env fp (jsOrS s.currentMimeType "audio/webm")).1
      = Except.error e) :
    (stopHandler s env).result = some
      { filePath := some fp, text := none, raw := none
        error := some ("Error: " ++ e), info := none }
    ∧ (stopHandler s env).formatInvocations = 0 := by
  simp [stopHandler, hfp, hstt]

/-- A state with an open session writing to `Recordings/rec_T.webm`. -/
def openSessionT : RecState :=
  { currentWriteStream := some "Recordings/rec_T.webm"
    currentFilePath := some "Recordings/rec_T.webm"
    currentMimeType := some "audio/webm"
    files := fun _ => [] }

/-- Environment: OpenAI for both stages; STT succeeds with "hello", the chat
endpoint fails with HTTP 500. -/
def envFmtFail : PipelineEnv :=
  { cfg := { sttProvider := "openai", llmProvider := "openai"
             openaiApiKey := "k", geminiApiKey := "" }
    openaiStt := { ok := true, status := 200, errText := "", text := some "hello" }
    geminiStt := { ok := false, status := 0, errText := "", parts := none }
    openaiFmt := { ok := false, status := 500, errText := "boom", content := none }
    geminiFmt := { ok := false, status := 0, errText := "", parts := none } }

/-- Environment: OpenAI for both stages; the STT endpoint fails with HTTP 400. -/
def envSttFail : PipelineEnv :=
  { cfg := { sttProvider := "openai", llmProvider := "openai"
             openaiApiKey := "k", geminiApiKey := "" }
    openaiStt := { ok := false, status := 400, errText := "bad audio", text := none }
    geminiStt := { ok := false, status := 0, errText := "", parts := none }
    openaiFmt := { ok := true, status := 200, errText := "", content := some "x" }
    geminiFmt := { ok := false, status := 0, errText := "", parts := none } }

/-- Witness for C4: a concrete failing STT response yields the error-only
result and zero format invocations. -/
theorem stop_sttFail_errorResult_witness :
    (stopHandler openSessionT envSttFail).result = some
      { filePath := some "Recordings/rec_T.webm", text := none, raw := none
        error := some ("Error: " ++ "Whisper API error 400: bad audio")
        info := none }
    ∧ (stopHandler openSessionT envSttFail).formatInvocations = 0 :=
  stop_sttFail_errorResult openSessionT envSttFail
    "Recordings/rec_T.webm" "Whisper API error 400: bad audio" rfl rfl

/-! ## Claim C1: formatting failure after successful STT -/

/-- Claim C1 counterexample: with an open session, OpenAI STT succeeding with
"hello" and the chat endpoint failing, the delivered `recording:result` does
NOT carry the raw transcript (the claim asserts the raw transcript is present
and the formatted field equals it; in fact the single catch block delivers an
error-only event). -/
theorem stop_formatFail_counterexample :
    ¬ ((stopHandler openSessionT envFmtFail).result.map ResultEvent.raw
        = some (some "hello")
      ∧ (stopHandler openSessionT envFmtFail).result.map ResultEvent.text
        = some (some "hello")) := by
  decide

/-- Claim C1 (amended): if the STT client succeeds but the formatting client
fails, the delivered `recording:result` is an error-only event: its error
field is set to the stringified formatting error and it carries neither the
raw transcript nor any formatted text (no pass-through fallback, no separate
formatting-failure indicator); only the IPC reply still reports ok. -/
theorem stop_formatFail_errorResult (s : RecState) (env : PipelineEnv)
    (fp raw e : String) (hfp : s.currentFilePath = some fp)
    (hstt : (transcribeCall env fp (jsOrS s.currentMimeType "audio/webm")).1
      = Except.ok raw)
    (hfmt : (formatCall env raw).1 = Except.error e) :
    (stopHandler s env).result = some
      { filePath := some fp, text := none, raw := none
        error := some ("Error: " ++ e), info := none }
    ∧ (stopHandler s env).resp
      = { ok := true, filePath := some fp, error := none } := by
  simp [stopHandler, hfp, hstt, hfmt]

/-- Witness for the amended C1 at the concrete formatting-failure input. -/
theorem stop_formatFail_errorResult_witness :
    (stopHandler openSessionT envFmtFail).result = some
      { filePath := some "Recordings/rec_T.webm", text := none, raw := none
        error := some ("Error: " ++ "Chat API error 500: boom"), info := none }
    ∧ (stopHandler openSessionT envFmtFail).resp
      = { ok := true, filePath := some "Recordings/rec_T.webm", error := none } :=
  stop_formatFail_errorResult openSessionT envFmtFail
    "Recordings/rec_T.webm" "hello" "Chat API error 500: boom" rfl rfl rfl

/-! ## Claim C2: credential pre-flight checks -/

/-- Claim C2 counterexample: `transcribeWithOpenAI` with an absent (empty)
credential does not fail pre-flight — it issues one network request (and with
an ok backend response it even succeeds), contradicting the claimed zero
network calls for every provider. -/
theorem openai_missing_key_counterexample :
    ¬ ((transcribeWithOpenAI "" "Recordings/rec_T.webm" "audio/webm"
        { ok := true, status := 200, errText := "", text := some "hi" }).2 = 0) := by
  decide

/-- Claim C2 (amended): only the Gemini client checks its credential before
the network: with an empty Gemini key both `transcribeWithGemini` and
`formatWithGemini` fail with the configuration error "GEMINI_API_KEY is not
set" and make zero network calls; the OpenAI clients perform no credential
check and always issue exactly one network request, empty key or not. -/
theorem missing_credential_behavior (filePath mimeType t : String)
    (g : GeminiResp) (o1 : OpenAISttResp) (o2 : OpenAIFmtResp) :
    transcribeWithGemini "" filePath mimeType g
      = (Except.error "GEMINI_API_KEY is not set", 0)
    ∧ formatWithGemini "" g t
      = (Except.error "GEMINI_API_KEY is not set", 0)
    ∧ (transcribeWithOpenAI "" filePath mimeType o1).2 = 1
    ∧ (formatWithOpenAI "" o2 t).2 = 1 := by
  refine ⟨rfl, rfl, ?_, ?_⟩
  · unfold transcribeWithOpenAI
    split <;> rfl
  · unfold formatWithOpenAI
    split <;> rfl

/-! ## Claim C7: extension selection from the MIME type -/

theorem startsWithL_self_append (l m : List Char) :
    startsWithL l (l ++ m) = true := by
  induction l with
  | nil => rfl
  | cons a as ih => simp [startsWithL, ih]

theorem string_data_append (a b : String) : (a ++ b).data = a.data ++ b.data := by
  cases a
  cases b
  rfl

theorem endsIn_append (a b : String) : endsIn (a ++ b) b = true := by
  simp [endsIn, string_data_append, List.reverse_append, startsWithL_self_append]

/-- Claim C7 counterexample: the claim says any MIME type other than
`audio/webm` and `audio/wav` yields a `.dat` path, but requesting
`video/webm` produces a path ending in `.webm` (substring matching). -/
theorem mime_extension_counterexample :
    ¬ (endsIn ((startHandler idleState (some "video/webm") "T").2.filePath.getD "")
        ".dat" = true) := by
  decide

/-- Claim C7 (amended): the extension is chosen by substring containment on
the requested MIME type, not by exact equality: a value containing "webm"
yields a path ending in `.webm`; otherwise one containing "wav" yields
`.wav`; only a value containing neither yields `.dat`. In particular
`audio/webm` maps to `.webm` and `audio/wav` to `.wav`, but e.g.
`video/webm` also maps to `.webm`. -/
theorem start_extension_rule (s : RecState) (ts m : String) (hm : ¬ m = "") :
    (startHandler s (some m) ts).2.filePath
      = some (makeFilePath ts (extForMime m))
    ∧ endsIn (makeFilePath ts (extForMime m)) (extForMime m) = true
    ∧ (containsSub m.data "webm".data = true → extForMime m = ".webm")
    ∧ (containsSub m.data "webm".data = false →
        containsSub m.data "wav".data = true → extForMime m = ".wav")
    ∧ (containsSub m.data "webm".data = false →
        containsSub m.data "wav".data = false → extForMime m = ".dat") := by
  refine ⟨?_, ?_, ?_, ?_, ?_⟩
  · simp [startHandler, jsOrS, hm]
  · exact endsIn_append ("Recordings/rec_" ++ ts) (extForMime m)
  · intro h1
    simp [extForMime, h1]
  · intro h1 h2
    simp [extForMime, h1, h2]
  · intro h1 h2
    simp [extForMime, h1, h2]

/-- Witness for the amended C7 at `audio/webm`. -/
theorem start_extension_rule_witness :
    (startHandler idleState (some "audio/webm") "T").2.filePath
      = some (makeFilePath "T" (extForMime "audio/webm"))
    ∧ endsIn (makeFilePath "T" (extForMime "audio/webm"))
        (extForMime "audio/webm") = true
    ∧ (containsSub "audio/webm".data "webm".data = true →
        extForMime "audio/webm" = ".webm")
    ∧ (containsSub "audio/webm".data "webm".data = false →
        containsSub "audio/webm".data "wav".data = true →
        extForMime "audio/webm" = ".wav")
    ∧ (containsSub "audio/webm".data "webm".data = false →
        containsSub "audio/webm".data "wav".data = false →
        extForMime "audio/webm" = ".dat") :=
  start_extension_rule idleState "T" "audio/webm" (by decide)

/-! ## Claim C8: the data handler is a total, absorbing no-op outside OPEN -/

theorem setFile_self (f : String → ByteSeq) (p : String) :
    setFile f p (f p) = f := by
  funext q
  unfold setFile
  split
  · next h => rw [h]
  · rfl

/-- Claim C8: `recording:data` is total and never propagates a failure: with
no open stream, or a null chunk, or an empty chunk, or a failing write (the
caught write error), the state — file system included — is unchanged. -/
theorem data_noop (s : RecState) (chunk : Option ByteSeq) (writeOk : Bool)
    (h : s.currentWriteStream = none ∨ chunk = none ∨ chunk = some []
      ∨ writeOk = false) :
    dataHandler s chunk writeOk = s := by
  rcases h with h | h | h | h
  · rcases chunk with _ | b <;> simp [dataHandler, h]
  · subst h
    rcases hw : s.currentWriteStream with _ | p <;> simp [dataHandler, hw]
  · subst h
    rcases hw : s.currentWriteStream with _ | p
    · simp [dataHandler, hw]
    · cases writeOk
      · simp [dataHandler, hw]
      · simp [dataHandler, hw, setFile_self]
        rw [← hw]
  · subst h
    rcases hw : s.currentWriteStream with _ | p <;>
      rcases chunk with _ | b <;> simp [dataHandler, hw]

/-- Witness for C8: a chunk arriving with no open session leaves the idle
state untouched. -/
theorem data_noop_witness :
    dataHandler idleState (some [7, 8]) true = idleState :=
  data_noop idleState (some [7, 8]) true (Or.inl rfl)

/-! ## Claim C10: empty formatting responses preserve the transcript -/

theorem trimS_empty : trimS "" = "" := by decide

/-- Claim C10: for both formatting clients, a successful backend response
whose text content is empty or absent yields the original transcript
unchanged, so a successful `format` call never loses the transcript. -/
theorem format_empty_preserves (apiKey t : String) (o : OpenAIFmtResp)
    (g : GeminiResp) (ho : o.ok = true)
    (hc : o.content = none ∨ o.content = some "")
    (hk : ¬ apiKey = "") (hg : g.ok = true)
    (hp : geminiText g = none ∨ geminiText g = some "") :
    (formatWithOpenAI apiKey o t).1 = Except.ok t
    ∧ (formatWithGemini apiKey g t).1 = Except.ok t := by
  constructor
  · rcases hc with hc | hc <;>
      simp [formatWithOpenAI, ho, hc, jsOrS, trimS_empty]
  · rcases hp with hp | hp <;>
      simp [formatWithGemini, hk, hg, hp, jsOrS]

/-- Witness for C10: an OpenAI response with empty content and a Gemini
response whose parts join-trim to empty both return the input transcript. -/
theorem format_empty_preserves_witness :
    (formatWithOpenAI "k"
      { ok := true, status := 200, errText := "", content := some "" }
      "raw text").1 = Except.ok "raw text"
    ∧ (formatWithGemini "k"
      { ok := true, status := 200, errText := "", parts := some ["", " "] }
      "raw text").1 = Except.ok "raw text" :=
  format_empty_preserves "k" "raw text" _ _ rfl (Or.inr rfl) (by decide) rfl
    (Or.inr (by decide))

/-! ## Claims C3 and C6: chunk accumulation and last-writer-wins -/

/-- Invariant of a run of successful `recording:data` deliveries: the open
stream and the session fields are untouched, the sink file accumulates the
chunk bytes in call order, and every other path keeps its content. -/
theorem runDataOk_spec (cs : List ByteSeq) (st : RecState) (p : String)
    (hw : st.currentWriteStream = some p) :
    (runDataOk st cs).currentWriteStream = some p
    ∧ (runDataOk st cs).currentFilePath = st.currentFilePath
    ∧ (runDataOk st cs).currentMimeType = st.currentMimeType
    ∧ (runDataOk st cs).files p = st.files p ++ concatBytes cs
    ∧ ∀ q, ¬ q = p → (runDataOk st cs).files q = st.files q := by
  induction cs generalizing st with
  | nil => simp [runDataOk, concatBytes, hw]
  | cons b bs ih =>
      have hrun : runDataOk st (b :: bs)
          = runDataOk (dataHandler st (some b) true) bs := rfl
      have hw' : (dataHandler st (some b) true).currentWriteStream = some p := by
        simp [dataHandler, hw]
      obtain ⟨h1, h2, h3, h4, h5⟩ := ih (dataHandler st (some b) true) hw'
      refine ⟨?_, ?_, ?_, ?_, ?_⟩
      · rw [hrun]
        exact h1
      · rw [hrun, h2]
        simp [dataHandler, hw]
      · rw [hrun, h3]
        simp [dataHandler, hw]
      · rw [hrun, h4]
        simp [dataHandler, hw, setFile, concatBytes]
      · intro q hq
        rw [hrun, h5 q hq]
        simp [dataHandler, hw, setFile, hq]

/-- Claim C3: a `start`, any sequence of `recording:data` chunks whose writes
succeed, then `stop`: the reply names the session's path and the finalized
file's bytes are exactly the concatenation of the chunks in call order. -/
theorem record_concat (s : RecState) (mt : Option String) (ts : String)
    (cs : List ByteSeq) (env : PipelineEnv) :
    (stopHandler (runDataOk (startHandler s mt ts).1 cs) env).resp.filePath
      = some (makeFilePath ts (extForMime (jsOrS mt "audio/webm")))
    ∧ (stopHandler (runDataOk (startHandler s mt ts).1 cs) env).state.files
        (makeFilePath ts (extForMime (jsOrS mt "audio/webm")))
      = concatBytes cs := by
  have hw : (startHandler s mt ts).1.currentWriteStream
      = some (makeFilePath ts (extForMime (jsOrS mt "audio/webm"))) := rfl
  obtain ⟨h1, h2, h3, h4, h5⟩ := runDataOk_spec cs (startHandler s mt ts).1 _ hw
  refine ⟨?_, ?_⟩
  · rw [stopHandler_resp_filePath, h2]
    rfl
  · rw [stopHandler_files, h4]
    show setFile s.files _ [] _ ++ concatBytes cs = concatBytes cs
    simp [setFile]

/-- Claim C6: a second `start` without an intervening `stop` replies ok with
the new path, every subsequent chunk leaves the first session's file
untouched (it goes to the second sink), and the next `stop` observes the
second session's path (last-writer-wins on the single session slot). -/
theorem start_twice_lastWriterWins (s : RecState) (mt1 mt2 : Option String)
    (ts1 ts2 : String) (cs : List ByteSeq) (env : PipelineEnv)
    (hne : ¬ makeFilePath ts1 (extForMime (jsOrS mt1 "audio/webm"))
        = makeFilePath ts2 (extForMime (jsOrS mt2 "audio/webm"))) :
    (startHandler (startHandler s mt1 ts1).1 mt2 ts2).2
      = { ok := true
          filePath := some (makeFilePath ts2 (extForMime (jsOrS mt2 "audio/webm")))
          error := none }
    ∧ (runDataOk (startHandler (startHandler s mt1 ts1).1 mt2 ts2).1 cs).files
        (makeFilePath ts1 (extForMime (jsOrS mt1 "audio/webm")))
      = (startHandler (startHandler s mt1 ts1).1 mt2 ts2).1.files
          (makeFilePath ts1 (extForMime (jsOrS mt1 "audio/webm")))
    ∧ (stopHandler
        (runDataOk (startHandler (startHandler s mt1 ts1).1 mt2 ts2).1 cs)
        env).resp.filePath
      = some (makeFilePath ts2 (extForMime (jsOrS mt2 "audio/webm"))) := by
  have hw2 : (startHandler (startHandler s mt1 ts1).1 mt2 ts2).1.currentWriteStream
      = some (makeFilePath ts2 (extForMime (jsOrS mt2 "audio/webm"))) := rfl
  obtain ⟨h1, h2, h3, h4, h5⟩ :=
    runDataOk_spec cs (startHandler (startHandler s mt1 ts1).1 mt2 ts2).1 _ hw2
  refine ⟨rfl, ?_, ?_⟩
  · exact h5 _ hne
  · rw [stopHandler_resp_filePath, h2]
    rfl

/-- Witness for C6 at two concrete sessions with distinct timestamps. -/
theorem start_twice_lastWriterWins_witness :
    (startHandler (startHandler idleState none "T1").1 none "T2").2
      = { ok := true
          filePath := some (makeFilePath "T2" (extForMime (jsOrS none "audio/webm")))
          error := none }
    ∧ (runDataOk (startHandler (startHandler idleState none "T1").1 none "T2").1
        [[1], [2]]).files
        (makeFilePath "T1" (extForMime (jsOrS none "audio/webm")))
      = (startHandler (startHandler idleState none "T1").1 none "T2").1.files
          (makeFilePath "T1" (extForMime (jsOrS none "audio/webm")))
    ∧ (stopHandler
        (runDataOk (startHandler (startHandler idleState none "T1").1 none "T2").1
          [[1], [2]])
        envSttFail).resp.filePath
      = some (makeFilePath "T2" (extForMime (jsOrS none "audio/webm"))) :=
  start_twice_lastWriterWins idleState none none "T1" "T2" [[1], [2]] envSttFail
    (by decide)
